import Mathlib

/-!
Shallow embedding of the game core of `src/game_logic.py` (xiehouyu_game):
the data model (`GameConfig`, `PlayerStats`, `QuestionData`, `GameState`),
the answer generator, the score manager and the game state machine.

Randomness in the Python source (`random.choice`, `random.sample`,
`random.shuffle`) is modelled by explicit parameters: the chosen index, the
list of sampled indices, and a permutation function; theorems quantify over
them under the validity hypotheses the library guarantees (index in range,
sampled indices distinct and in range, the shuffle being a permutation).
Python `int` is modelled as `Int`, Python strings as `String` (Python `len`
counts code points, as does `String.length`).
-/

/-- `GamePhase` enum of `game_logic.py`. -/
inductive GamePhase where
  | SETUP
  | PLAYING
  | WAITING
  | ROUND_FEEDBACK
  | FINISHED
deriving DecidableEq, Repr

/-- `PlayerSide` enum of `game_logic.py`. -/
inductive PlayerSide where
  | LEFT
  | RIGHT
deriving DecidableEq, Repr

/-- `GameConfig` dataclass. The `streak_bonus` dict is modelled as the total
function `Int → Int` realising `dict.get(k, 0)` (the only way the source reads
it). -/
structure GameConfig where
  total_rounds : Int
  points_per_correct : Int
  bonus_for_correct : Int
  streak_bonus : Int → Int
  max_streak_bonus : Int

/-- The default `streak_bonus` dict `{2:1, 3:1, 4:2, 5:2, 6:3, 7:3}`, read
through `.get(k, 0)`. -/
def defaultStreakTable : Int → Int := fun s =>
  if s = 2 ∨ s = 3 then 1
  else if s = 4 ∨ s = 5 then 2
  else if s = 6 ∨ s = 7 then 3
  else 0

/-- The default `GameConfig()`. -/
def defaultConfig : GameConfig :=
  { total_rounds := 12
    points_per_correct := 2
    bonus_for_correct := 1
    streak_bonus := defaultStreakTable
    max_streak_bonus := 4 }

/-- `PlayerStats` dataclass. -/
structure PlayerStats where
  score : Int
  correct_answers : Int
  wrong_answers : Int
  current_streak : Int
  max_streak : Int
  last_round_score : Int
  last_round_details : String
  priority_answer_count : Int
  streak_bonuses : List Int
deriving DecidableEq, Repr

/-- A fresh `PlayerStats()` (all dataclass defaults). -/
def initPlayerStats : PlayerStats :=
  { score := 0
    correct_answers := 0
    wrong_answers := 0
    current_streak := 0
    max_streak := 0
    last_round_score := 0
    last_round_details := ""
    priority_answer_count := 0
    streak_bonuses := [] }

/-- The literal wrong-answer message `"回答错误，本轮得分为0分"`. -/
def wrongMsg : String := "回答错误，本轮得分为0分"

/-- `PlayerStats.add_correct_answer`. -/
def add_correct_answer (stats : PlayerStats) (points_earned : Int) (details : String)
    (is_priority : Bool) : PlayerStats :=
  { stats with
    score := stats.score + points_earned
    correct_answers := stats.correct_answers + 1
    current_streak := stats.current_streak + 1
    max_streak := max stats.max_streak (stats.current_streak + 1)
    last_round_score := points_earned
    last_round_details := details
    priority_answer_count :=
      if is_priority then stats.priority_answer_count + 1 else stats.priority_answer_count }

/-- `PlayerStats._calculate_streak_bonus`. -/
def calc_streak_bonus (streak : Int) (config : GameConfig) : Int :=
  if streak ≥ 8 then config.max_streak_bonus
  else config.streak_bonus streak

/-- The streak-end detail message built by `PlayerStats.add_wrong_answer`. -/
def streakEndMsg (bonus streak : Int) : String :=
  "回答错误，本轮得分为0分。连击结束！获得" ++ toString bonus ++
    ("分连击奖励（" ++ toString streak ++ "连击）")

/-- `PlayerStats.add_wrong_answer`.  The Python parameter `config` defaults to
`None`; a dataclass instance is always truthy, so `if config` is `config ≠
None`.  `last_round_score` is assigned the local `streak_bonus` variable in
every path (it stays `0` unless a bonus was computed). -/
def add_wrong_answer (stats : PlayerStats) (config : Option GameConfig) : PlayerStats :=
  let streak_bonus : Int :=
    match config with
    | some cfg => if stats.current_streak ≥ 2 then calc_streak_bonus stats.current_streak cfg else 0
    | none => 0
  let stats1 : PlayerStats :=
    match config with
    | some cfg =>
      if stats.current_streak ≥ 2 then
        if calc_streak_bonus stats.current_streak cfg > 0 then
          { stats with
            score := stats.score + calc_streak_bonus stats.current_streak cfg
            streak_bonuses := stats.streak_bonuses ++ [calc_streak_bonus stats.current_streak cfg]
            last_round_details :=
              streakEndMsg (calc_streak_bonus stats.current_streak cfg) stats.current_streak }
        else { stats with last_round_details := wrongMsg }
      else { stats with last_round_details := wrongMsg }
    | none => { stats with last_round_details := wrongMsg }
  { stats1 with
    wrong_answers := stats1.wrong_answers + 1
    current_streak := 0
    last_round_score := streak_bonus }

/-- Detail message for a correct first-to-answer round
(`ScoreManager.calculate_score_and_details`). -/
def correctFirstMsg (base bonus total : Int) : String :=
  "回答正确！获得" ++ toString base ++
    ("分基础得分 + " ++ toString bonus ++
      ("分优先回答奖励，本轮共得" ++ (toString total ++ "分")))

/-- Detail message for a correct non-first round. -/
def correctSecondMsg (base total : Int) : String :=
  "回答正确！获得" ++ toString base ++ ("分基础得分，本轮共得" ++ (toString total ++ "分"))

/-- `ScoreManager.calculate_score_and_details` (the `difficulty_level`
argument is accepted and ignored, as in the source). -/
def calculate_score_and_details (config : GameConfig) (is_correct : Bool)
    (difficulty_level : Int) (is_first_to_answer : Bool) : Int × String :=
  if !is_correct then (0, wrongMsg)
  else
    let base_score := config.points_per_correct
    if is_first_to_answer then
      let bonus_score := config.bonus_for_correct
      let total_score := base_score + bonus_score
      (total_score, correctFirstMsg base_score bonus_score total_score)
    else
      (base_score, correctSecondMsg base_score base_score)

/-- "`s` mentions `pat`": `pat` occurs contiguously in `s`. -/
def mentions (s pat : String) : Prop := List.IsInfix pat.data s.data

instance instDecidableMentions (s pat : String) : Decidable (mentions s pat) :=
  List.decidableInfix pat.data s.data

/-- One entry of the xiehouyu dataset (`{riddle, answer}` dict). -/
structure RiddleEntry where
  riddle : String
  answer : String
deriving DecidableEq, Repr

/-- `QuestionData` dataclass. -/
structure QuestionData where
  riddle : String
  correct_answer : String
  choices : List String
  masked_choices : List String
  correct_index : Int
  difficulty_level : Int
deriving DecidableEq, Repr

/-- Placeholder entry for the (never reached in valid calls) out-of-range
`getD` default. -/
def dummyEntry : RiddleEntry := { riddle := "", answer := "" }

/-- Python `str.strip` on a char list: drop whitespace from both ends. -/
def listStrip (l : List Char) : List Char :=
  ((l.dropWhile Char.isWhitespace).reverse.dropWhile Char.isWhitespace).reverse

/-- The canonicalisation applied to an answer holding several variants:
`if '；' in answer: answer = answer.split('；')[0].strip()` — the text before
the first full-width semicolon, stripped.  Implemented on the char list
(`String.data`) so that it evaluates by structural recursion. -/
def canonicalAnswer (answer : String) : String :=
  if answer.data.contains '；' then
    String.mk (listStrip (answer.data.takeWhile (fun c => c ≠ '；')))
  else answer

/-- `AnswerGenerator._mask_answer` (masking disabled: identity). -/
def mask_answer (answer : String) : String := answer

/-- `AnswerGenerator._calculate_difficulty`. -/
def calculate_difficulty (answer : String) : Int :=
  if answer.length ≤ 3 then 1
  else if answer.length ≤ 6 then 2
  else 3

/-- The candidate list `filtered_answers` built by
`AnswerGenerator._generate_incorrect_answers` before sampling: length-similar
(±2) answers other than the correct one, widened to all other answers when
fewer than `count` remain, then canonicalised. -/
def incorrect_candidates (answer_pool : List String) (correct_answer : String)
    (count : Nat) : List String :=
  let correct_length : Int := correct_answer.length
  let similar_answers := answer_pool.filter
    (fun a => decide (((a.length : Int) - correct_length).natAbs ≤ 2) && decide (a ≠ correct_answer))
  let similar_answers :=
    if similar_answers.length < count then answer_pool.filter (fun a => decide (a ≠ correct_answer))
    else similar_answers
  similar_answers.map canonicalAnswer

/-- `AnswerGenerator._generate_incorrect_answers`; `random.sample` is modelled
by the index list `sampIdxs` (valid calls have the indices distinct, in range
and `min count candidates.length` many). -/
def generate_incorrect_answers (answer_pool : List String) (correct_answer : String)
    (count : Nat) (sampIdxs : List Nat) : List String :=
  sampIdxs.map (fun i => (incorrect_candidates answer_pool correct_answer count).getD i "")

/-- `AnswerGenerator.generate_question`; `random.choice` is the index
`selIdx`, `random.sample` the index list `sampIdxs`, `random.shuffle` the
permutation `σ`. -/
def generate_question (data : List RiddleEntry) (selIdx : Nat) (sampIdxs : List Nat)
    (σ : List (String × String) → List (String × String)) : QuestionData :=
  let answer_pool := data.map RiddleEntry.answer
  let selected := data.getD selIdx dummyEntry
  let correct_answer := canonicalAnswer selected.answer
  let incorrect_answers := generate_incorrect_answers answer_pool correct_answer 3 sampIdxs
  let all_answers := correct_answer :: incorrect_answers
  let masked_answers := all_answers.map mask_answer
  let combined := σ (all_answers.zip masked_answers)
  let correct_index := combined.findIdx (fun p => p.1 == correct_answer)
  { riddle := selected.riddle
    correct_answer := correct_answer
    choices := combined.map Prod.fst
    masked_choices := combined.map Prod.snd
    correct_index := (correct_index : Int)
    difficulty_level := calculate_difficulty correct_answer }

/-- `generate_question` including the only failure the Python code can raise:
`random.choice` on an empty pool raises `IndexError`.  (`random.sample` is
called with `min(count, len(...))` and never raises; no custom error classes
exist in the source.) -/
def generate_question_exc (data : List RiddleEntry) (selIdx : Nat) (sampIdxs : List Nat)
    (σ : List (String × String) → List (String × String)) : Except String QuestionData :=
  if data.isEmpty then .error "IndexError"
  else .ok (generate_question data selIdx sampIdxs σ)

/-- The `round_data` dict appended to `round_history` by `GameState.end_round`
(the two per-player dicts flattened into left/right fields). -/
structure RoundRecord where
  round : Int
  left_question : Option QuestionData
  right_question : Option QuestionData
  left_answer : Option Int
  right_answer : Option Int
  left_score : Int
  right_score : Int
deriving DecidableEq, Repr

/-- `GameState`; the `player_stats`, `player_questions` and `player_answers`
dicts keyed by `PlayerSide` become left/right field pairs. -/
structure GameState where
  config : GameConfig
  phase : GamePhase
  current_round : Int
  left_stats : PlayerStats
  right_stats : PlayerStats
  left_question : Option QuestionData
  right_question : Option QuestionData
  left_answer : Option Int
  right_answer : Option Int
  first_to_answer : Option PlayerSide
  round_history : List RoundRecord

/-- `self.player_stats[player]`. -/
def GameState.player_stats (g : GameState) : PlayerSide → PlayerStats
  | .LEFT => g.left_stats
  | .RIGHT => g.right_stats

/-- `self.player_stats[player] = s`. -/
def GameState.set_stats (g : GameState) (p : PlayerSide) (s : PlayerStats) : GameState :=
  match p with
  | .LEFT => { g with left_stats := s }
  | .RIGHT => { g with right_stats := s }

/-- `self.player_questions[player]`. -/
def GameState.player_question (g : GameState) : PlayerSide → Option QuestionData
  | .LEFT => g.left_question
  | .RIGHT => g.right_question

/-- `self.player_answers[player]`. -/
def GameState.player_answer (g : GameState) : PlayerSide → Option Int
  | .LEFT => g.left_answer
  | .RIGHT => g.right_answer

/-- `self.player_answers[player] = a`. -/
def GameState.set_answer (g : GameState) (p : PlayerSide) (a : Option Int) : GameState :=
  match p with
  | .LEFT => { g with left_answer := a }
  | .RIGHT => { g with right_answer := a }

/-- `GameState.__init__` (pre-`start_game` state). -/
def initGameState (config : GameConfig) : GameState :=
  { config := config
    phase := GamePhase.SETUP
    current_round := 0
    left_stats := initPlayerStats
    right_stats := initPlayerStats
    left_question := none
    right_question := none
    left_answer := none
    right_answer := none
    first_to_answer := none
    round_history := [] }

/-- The end-of-game detail fragment appended by `GameState.end_game`. -/
def endGameMsg (bonus streak : Int) : String :=
  " 游戏结束！获得" ++ toString bonus ++ ("分连击奖励（" ++ toString streak ++ "连击）")

/-- End-of-game streak-bonus application to one player's stats
(the loop body of `GameState.end_game`). -/
def applyEndBonus (config : GameConfig) (stats : PlayerStats) : PlayerStats :=
  if stats.current_streak ≥ 2 then
    let streak_bonus := calc_streak_bonus stats.current_streak config
    if streak_bonus > 0 then
      { stats with
        score := stats.score + streak_bonus
        streak_bonuses := stats.streak_bonuses ++ [streak_bonus]
        last_round_details :=
          stats.last_round_details ++ endGameMsg streak_bonus stats.current_streak }
    else stats
  else stats

/-- `GameState.end_game`. -/
def end_game (g : GameState) : GameState :=
  { g with
    left_stats := applyEndBonus g.config g.left_stats
    right_stats := applyEndBonus g.config g.right_stats
    phase := GamePhase.FINISHED }

/-- `GameState.start_new_round`; the two `generate_question()` results are the
explicit parameters `qL`, `qR`. -/
def start_new_round (g : GameState) (qL qR : QuestionData) : GameState :=
  if g.current_round ≥ g.config.total_rounds then end_game g
  else
    { g with
      current_round := g.current_round + 1
      left_question := some qL
      right_question := some qR
      left_answer := none
      right_answer := none
      first_to_answer := none
      phase := GamePhase.WAITING }

/-- `GameState.start_game`. -/
def start_game (g : GameState) (qL qR : QuestionData) : GameState :=
  let g1 : GameState :=
    { g with
      phase := GamePhase.PLAYING
      current_round := 0
      round_history := []
      left_stats := initPlayerStats
      right_stats := initPlayerStats }
  start_new_round g1 qL qR

/-- `GameState.show_round_feedback`. -/
def show_round_feedback (g : GameState) : GameState :=
  { g with phase := GamePhase.ROUND_FEEDBACK }

/-- Placeholder question (a valid call never reads it: in `WAITING` both
question slots are set). -/
def dummyQuestion : QuestionData :=
  { riddle := ""
    correct_answer := ""
    choices := []
    masked_choices := []
    correct_index := 0
    difficulty_level := 1 }

/-- `GameState.submit_answer`. -/
def submit_answer (g : GameState) (player : PlayerSide) (answer_index : Int) :
    Bool × GameState :=
  if g.phase ≠ GamePhase.WAITING ∨ g.player_answer player ≠ none then (false, g)
  else
    let is_first_to_answer : Bool := g.first_to_answer.isNone
    let g1 := if is_first_to_answer then { g with first_to_answer := some player } else g
    let g2 := g1.set_answer player (some answer_index)
    let player_question := (g2.player_question player).getD dummyQuestion
    let is_correct : Bool := answer_index == player_question.correct_index
    let sd := calculate_score_and_details g2.config is_correct
      player_question.difficulty_level is_first_to_answer
    let stats := g2.player_stats player
    let stats1 :=
      if is_correct then add_correct_answer stats sd.1 sd.2 is_first_to_answer
      else add_wrong_answer stats (some g2.config)
    let g3 := g2.set_stats player stats1
    let g4 :=
      if g3.left_answer ≠ none ∧ g3.right_answer ≠ none then show_round_feedback g3
      else g3
    (true, g4)

/-- `GameState.end_round`. -/
def end_round (g : GameState) : GameState :=
  let record : RoundRecord :=
    { round := g.current_round
      left_question := g.left_question
      right_question := g.right_question
      left_answer := g.left_answer
      right_answer := g.right_answer
      left_score := g.left_stats.score
      right_score := g.right_stats.score }
  { g with
    round_history := g.round_history ++ [record]
    phase := GamePhase.PLAYING }

/-- `GameState.continue_to_next_round`; the questions a possible new round
would draw are the explicit parameters `qL`, `qR`. -/
def continue_to_next_round (g : GameState) (qL qR : QuestionData) : GameState :=
  let g1 := end_round g
  if g1.current_round ≥ g1.config.total_rounds then end_game g1
  else start_new_round g1 qL qR

/-- `GameState.get_winner`. -/
def get_winner (g : GameState) : Option PlayerSide :=
  if g.phase ≠ GamePhase.FINISHED then none
  else
    let left_score := g.left_stats.score
    let right_score := g.right_stats.score
    if left_score > right_score then some PlayerSide.LEFT
    else if right_score > left_score then some PlayerSide.RIGHT
    else none

/-- Reachability of a `GameState` through the public interface, from the
freshly constructed state for a given config, with arbitrary generated
questions and submitted answers. -/
inductive Reachable (c : GameConfig) : GameState → Prop where
  | init : Reachable c (initGameState c)
  | start (g : GameState) (qL qR : QuestionData) :
      Reachable c g → Reachable c (start_game g qL qR)
  | submit (g : GameState) (p : PlayerSide) (i : Int) :
      Reachable c g → Reachable c (submit_answer g p i).2
  | cont (g : GameState) (qL qR : QuestionData) :
      Reachable c g → Reachable c (continue_to_next_round g qL qR)

/-- The C9 stats invariant: streak within `[0, max_streak]`, and score and
both counters non-negative. -/
def statsBounds (s : PlayerStats) : Prop :=
  0 ≤ s.current_streak ∧ s.current_streak ≤ s.max_streak ∧
    0 ≤ s.score ∧ 0 ≤ s.correct_answers ∧ 0 ≤ s.wrong_answers

instance instDecidableStatsBounds (s : PlayerStats) : Decidable (statsBounds s) :=
  inferInstanceAs (Decidable (_ ∧ _ ∧ _ ∧ _ ∧ _))

/-! ### Helper lemmas: string containment and decimal renderings -/

theorem mentions_appendL {s pat : String} (t : String) (h : mentions s pat) :
    mentions (s ++ t) pat := by
  unfold mentions at h ⊢
  rw [String.data_append]
  exact h.trans (List.prefix_append s.data t.data).isInfix

theorem mentions_appendR {t pat : String} (s : String) (h : mentions t pat) :
    mentions (s ++ t) pat := by
  unfold mentions at h ⊢
  rw [String.data_append]
  exact h.trans (List.suffix_append s.data t.data).isInfix

theorem mentions_refl (s : String) : mentions s s := List.infix_rfl

theorem not_mentions_of_not_mem {s pat : String} (c : Char) (hc : c ∈ pat.data)
    (hs : c ∉ s.data) : ¬ mentions s pat :=
  fun h => hs (h.subset hc)

theorem digitChar_ne (m : Nat) : Nat.digitChar m ≠ '优' := by
  rcases Nat.lt_or_ge m 17 with h | h
  · interval_cases m <;> decide
  · have hstar : Nat.digitChar m = '*' := by
      unfold Nat.digitChar
      repeat rw [if_neg (by omega)]
    rw [hstar]
    decide

theorem mem_toDigitsCore {base : Nat} :
    ∀ (fuel n : Nat) (l : List Char) (c : Char), c ∈ Nat.toDigitsCore base fuel n l →
      (∃ m, c = Nat.digitChar m) ∨ c ∈ l := by
  intro fuel
  induction fuel with
  | zero => intro n l c h; exact Or.inr h
  | succ fuel ih =>
    intro n l c h
    rw [Nat.toDigitsCore] at h
    by_cases hz : n / base = 0
    · rw [if_pos hz] at h
      rcases List.mem_cons.mp h with h1 | h1
      · exact Or.inl ⟨n % base, h1⟩
      · exact Or.inr h1
    · rw [if_neg hz] at h
      rcases ih (n / base) (Nat.digitChar (n % base) :: l) c h with h1 | h1
      · exact Or.inl h1
      · rcases List.mem_cons.mp h1 with h2 | h2
        · exact Or.inl ⟨n % base, h2⟩
        · exact Or.inr h2

theorem mem_nat_repr {n : Nat} {c : Char} (h : c ∈ (Nat.repr n).data) :
    ∃ m, c = Nat.digitChar m := by
  have h' : c ∈ Nat.toDigitsCore 10 (n + 1) n [] := h
  rcases mem_toDigitsCore (n + 1) n [] c h' with h1 | h1
  · exact h1
  · cases h1

theorem mem_int_toString {i : Int} {c : Char} (h : c ∈ (toString i).data) :
    c = '-' ∨ ∃ m, c = Nat.digitChar m := by
  cases i with
  | ofNat m => exact Or.inr (mem_nat_repr h)
  | negSucc m =>
    have h' : c ∈ ("-" ++ Nat.repr (m + 1)).data := h
    rw [String.data_append] at h'
    rcases List.mem_append.mp h' with h1 | h1
    · left
      simpa using h1
    · exact Or.inr (mem_nat_repr h1)

/-- The character `'优'` (of the priority-bonus marker `"优先"`) never occurs
in the decimal rendering of an integer. -/
theorem yoummark_not_mem_int_toString (i : Int) : '优' ∉ (toString i).data := by
  intro h
  rcases mem_int_toString h with h1 | ⟨m, hm⟩
  · exact absurd h1 (by decide)
  · exact digitChar_ne m hm.symm

theorem mentions_correctFirstMsg_ok (b bo t : Int) :
    mentions (correctFirstMsg b bo t) "回答正确" := by
  unfold correctFirstMsg
  exact mentions_appendL _ (mentions_appendL _ (by decide))

theorem mentions_correctFirstMsg_total (b bo t : Int) :
    mentions (correctFirstMsg b bo t) (toString t) := by
  unfold correctFirstMsg
  exact mentions_appendR _ (mentions_appendR _ (mentions_appendR _
    (mentions_appendL _ (mentions_refl _))))

theorem mentions_correctFirstMsg_priority (b bo t : Int) :
    mentions (correctFirstMsg b bo t) "优先" := by
  unfold correctFirstMsg
  exact mentions_appendR _ (mentions_appendR _ (mentions_appendL _ (by decide)))

theorem mentions_correctSecondMsg_ok (b t : Int) :
    mentions (correctSecondMsg b t) "回答正确" := by
  unfold correctSecondMsg
  exact mentions_appendL _ (mentions_appendL _ (by decide))

theorem mentions_correctSecondMsg_total (b t : Int) :
    mentions (correctSecondMsg b t) (toString t) := by
  unfold correctSecondMsg
  exact mentions_appendR _ (mentions_appendR _ (mentions_appendL _ (mentions_refl _)))

theorem not_mentions_correctSecondMsg_priority (b t : Int) :
    ¬ mentions (correctSecondMsg b t) "优先" := by
  apply not_mentions_of_not_mem '优' (by decide)
  unfold correctSecondMsg
  simp only [String.data_append, List.mem_append]
  rintro ((h | h) | (h | (h | h)))
  · exact absurd h (by decide)
  · exact yoummark_not_mem_int_toString _ h
  · exact absurd h (by decide)
  · exact yoummark_not_mem_int_toString _ h
  · exact absurd h (by decide)

theorem defaultStreakTable_nonneg (k : Int) : 0 ≤ defaultStreakTable k := by
  unfold defaultStreakTable
  split_ifs <;> norm_num

/-! Projections commute with `if`. -/

@[simp] theorem ite_phase (c : Prop) [Decidable c] (g1 g2 : GameState) :
    (if c then g1 else g2).phase = if c then g1.phase else g2.phase :=
  apply_ite GameState.phase c g1 g2

@[simp] theorem ite_current_round (c : Prop) [Decidable c] (g1 g2 : GameState) :
    (if c then g1 else g2).current_round = if c then g1.current_round else g2.current_round :=
  apply_ite GameState.current_round c g1 g2

@[simp] theorem ite_left_answer (c : Prop) [Decidable c] (g1 g2 : GameState) :
    (if c then g1 else g2).left_answer = if c then g1.left_answer else g2.left_answer :=
  apply_ite GameState.left_answer c g1 g2

@[simp] theorem ite_right_answer (c : Prop) [Decidable c] (g1 g2 : GameState) :
    (if c then g1 else g2).right_answer = if c then g1.right_answer else g2.right_answer :=
  apply_ite GameState.right_answer c g1 g2

@[simp] theorem ite_left_stats (c : Prop) [Decidable c] (g1 g2 : GameState) :
    (if c then g1 else g2).left_stats = if c then g1.left_stats else g2.left_stats :=
  apply_ite GameState.left_stats c g1 g2

@[simp] theorem ite_right_stats (c : Prop) [Decidable c] (g1 g2 : GameState) :
    (if c then g1 else g2).right_stats = if c then g1.right_stats else g2.right_stats :=
  apply_ite GameState.right_stats c g1 g2

@[simp] theorem ite_left_question (c : Prop) [Decidable c] (g1 g2 : GameState) :
    (if c then g1 else g2).left_question = if c then g1.left_question else g2.left_question :=
  apply_ite GameState.left_question c g1 g2

@[simp] theorem ite_right_question (c : Prop) [Decidable c] (g1 g2 : GameState) :
    (if c then g1 else g2).right_question = if c then g1.right_question else g2.right_question :=
  apply_ite GameState.right_question c g1 g2

@[simp] theorem ite_first_to_answer (c : Prop) [Decidable c] (g1 g2 : GameState) :
    (if c then g1 else g2).first_to_answer = if c then g1.first_to_answer else g2.first_to_answer :=
  apply_ite GameState.first_to_answer c g1 g2

@[simp] theorem ite_config (c : Prop) [Decidable c] (g1 g2 : GameState) :
    (if c then g1 else g2).config = if c then g1.config else g2.config :=
  apply_ite GameState.config c g1 g2

@[simp] theorem ite_round_history (c : Prop) [Decidable c] (g1 g2 : GameState) :
    (if c then g1 else g2).round_history = if c then g1.round_history else g2.round_history :=
  apply_ite GameState.round_history c g1 g2

theorem start_game_effect (g : GameState) (qL qR : QuestionData)
    (hpos : 0 < g.config.total_rounds) :
    (start_game g qL qR).phase = GamePhase.WAITING ∧
    (start_game g qL qR).current_round = 1 ∧
    (start_game g qL qR).left_answer = none ∧
    (start_game g qL qR).right_answer = none ∧
    (start_game g qL qR).config = g.config := by
  have h1 : ¬ ((0 : Int) ≥ g.config.total_rounds) := by omega
  simp [start_game, start_new_round, h1]

theorem submit_answer_fields (g : GameState) (p : PlayerSide) (i : Int) :
    (submit_answer g p i).2.config = g.config ∧
    (submit_answer g p i).2.current_round = g.current_round := by
  unfold submit_answer
  by_cases hg : g.phase ≠ GamePhase.WAITING ∨ g.player_answer p ≠ none
  · rw [if_pos hg]
    exact ⟨rfl, rfl⟩
  · rw [if_neg hg]
    cases p <;>
      simp [GameState.set_answer, GameState.set_stats, show_round_feedback]

theorem submit_both_effect (g : GameState) (aL aR : Int)
    (hph : g.phase = GamePhase.WAITING) (hl : g.left_answer = none)
    (hr : g.right_answer = none) :
    (submit_answer g PlayerSide.LEFT aL).2.phase = GamePhase.WAITING ∧
    (submit_answer (submit_answer g PlayerSide.LEFT aL).2 PlayerSide.RIGHT aR).2.phase =
      GamePhase.ROUND_FEEDBACK ∧
    (submit_answer (submit_answer g PlayerSide.LEFT aL).2 PlayerSide.RIGHT aR).2.current_round =
      g.current_round ∧
    (submit_answer (submit_answer g PlayerSide.LEFT aL).2 PlayerSide.RIGHT aR).2.config =
      g.config := by
  simp [submit_answer, GameState.set_answer, GameState.set_stats, show_round_feedback,
    GameState.player_answer, GameState.player_question, GameState.player_stats,
    hph, hl, hr]

theorem continue_effect (g : GameState) (qL qR : QuestionData) :
    (end_round g).phase = GamePhase.PLAYING ∧
    (g.current_round ≥ g.config.total_rounds →
      (continue_to_next_round g qL qR).phase = GamePhase.FINISHED ∧
      (continue_to_next_round g qL qR).current_round = g.current_round ∧
      (continue_to_next_round g qL qR).config = g.config) ∧
    (¬ g.current_round ≥ g.config.total_rounds →
      (continue_to_next_round g qL qR).phase = GamePhase.WAITING ∧
      (continue_to_next_round g qL qR).current_round = g.current_round + 1 ∧
      (continue_to_next_round g qL qR).left_answer = none ∧
      (continue_to_next_round g qL qR).right_answer = none ∧
      (continue_to_next_round g qL qR).config = g.config) := by
  refine ⟨rfl, fun hge => ?_, fun hlt => ?_⟩
  · simp [continue_to_next_round, end_round, end_game, hge]
  · simp [continue_to_next_round, end_round, start_new_round, end_game, hlt]

theorem end_game_config (g : GameState) : (end_game g).config = g.config := rfl

theorem start_new_round_config (g : GameState) (qL qR : QuestionData) :
    (start_new_round g qL qR).config = g.config := by
  unfold start_new_round
  split <;> rfl

theorem start_game_config (g : GameState) (qL qR : QuestionData) :
    (start_game g qL qR).config = g.config := by
  unfold start_game
  rw [start_new_round_config]

theorem continue_config (g : GameState) (qL qR : QuestionData) :
    (continue_to_next_round g qL qR).config = g.config := by
  by_cases hge : g.current_round ≥ g.config.total_rounds
  · simp [continue_to_next_round, end_round, end_game, hge]
  · simp [continue_to_next_round, end_round, start_new_round, end_game, hge]

theorem reachable_config {c : GameConfig} {g : GameState} (h : Reachable c g) :
    g.config = c := by
  induction h with
  | init => rfl
  | start g' qL qR _ ih => rw [start_game_config]; exact ih
  | submit g' p i _ ih => rw [(submit_answer_fields g' p i).1]; exact ih
  | cont g' qL qR _ ih => rw [continue_config]; exact ih

theorem start_game_round_le (g : GameState) (qL qR : QuestionData)
    (hc : 0 ≤ g.config.total_rounds) :
    (start_game g qL qR).current_round ≤ g.config.total_rounds := by
  by_cases hge : (0 : Int) ≥ g.config.total_rounds
  · simp [start_game, start_new_round, end_game, hge]
    all_goals omega
  · simp [start_game, start_new_round, hge]
    all_goals omega

theorem continue_round_le (g : GameState) (qL qR : QuestionData)
    (h : g.current_round ≤ g.config.total_rounds) :
    (continue_to_next_round g qL qR).current_round ≤ g.config.total_rounds := by
  by_cases hge : g.current_round ≥ g.config.total_rounds
  · simp [continue_to_next_round, end_round, end_game, hge]
    omega
  · simp [continue_to_next_round, end_round, start_new_round, end_game, hge]
    omega

theorem reachable_round_le {c : GameConfig} (hc : 0 ≤ c.total_rounds)
    {g : GameState} (h : Reachable c g) : g.current_round ≤ c.total_rounds := by
  induction h with
  | init => exact hc
  | start g' qL qR hr ih =>
    have hcfg : g'.config = c := reachable_config hr
    have h1 := start_game_round_le g' qL qR (by rw [hcfg]; exact hc)
    rw [hcfg] at h1
    exact h1
  | submit g' p i hr ih =>
    rw [(submit_answer_fields g' p i).2]
    exact ih
  | cont g' qL qR hr ih =>
    have hcfg : g'.config = c := reachable_config hr
    have h1 := continue_round_le g' qL qR (by rw [hcfg]; exact ih)
    rw [hcfg] at h1
    exact h1

theorem zip_self_eq_map {α : Type} (l : List α) : l.zip l = l.map (fun a => (a, a)) := by
  induction l with
  | nil => rfl
  | cons x xs ih =>
    simp only [List.zip_cons_cons, List.map_cons]
    rw [ih]

theorem statsBounds_init : statsBounds initPlayerStats := by decide

theorem calculate_score_nonneg (cfg : GameConfig) (b : Bool) (d : Int) (f : Bool)
    (hb : 0 ≤ cfg.points_per_correct) (hbo : 0 ≤ cfg.bonus_for_correct) :
    0 ≤ (calculate_score_and_details cfg b d f).1 := by
  cases b <;> cases f <;> simp [calculate_score_and_details] <;> omega

theorem statsBounds_add_correct (s : PlayerStats) (pts : Int) (de : String) (pr : Bool)
    (h : statsBounds s) (hp : 0 ≤ pts) : statsBounds (add_correct_answer s pts de pr) := by
  obtain ⟨h1, h2, h3, h4, h5⟩ := h
  unfold statsBounds add_correct_answer
  dsimp only
  refine ⟨by omega, le_max_right _ _, by omega, by omega, by omega⟩

theorem statsBounds_add_wrong (s : PlayerStats) (cfg : GameConfig)
    (h : statsBounds s) : statsBounds (add_wrong_answer s (some cfg)) := by
  obtain ⟨h1, h2, h3, h4, h5⟩ := h
  unfold statsBounds add_wrong_answer
  dsimp only
  split_ifs with hA hB <;> (try dsimp only) <;>
    exact ⟨by omega, by omega, by omega, by omega, by omega⟩

theorem statsBounds_applyEndBonus (cfg : GameConfig) (s : PlayerStats)
    (h : statsBounds s) : statsBounds (applyEndBonus cfg s) := by
  obtain ⟨h1, h2, h3, h4, h5⟩ := h
  unfold statsBounds applyEndBonus
  dsimp only
  split_ifs with hA hB <;> (try dsimp only) <;>
    exact ⟨by omega, by omega, by omega, by omega, by omega⟩

theorem start_new_round_statsBounds (g : GameState) (qL qR : QuestionData)
    (hL : statsBounds g.left_stats) (hR : statsBounds g.right_stats) :
    statsBounds (start_new_round g qL qR).left_stats ∧
    statsBounds (start_new_round g qL qR).right_stats := by
  unfold start_new_round
  split_ifs with hge
  · exact ⟨statsBounds_applyEndBonus _ _ hL, statsBounds_applyEndBonus _ _ hR⟩
  · exact ⟨hL, hR⟩

theorem start_game_statsBounds (g : GameState) (qL qR : QuestionData) :
    statsBounds (start_game g qL qR).left_stats ∧
    statsBounds (start_game g qL qR).right_stats := by
  unfold start_game
  exact start_new_round_statsBounds _ qL qR statsBounds_init statsBounds_init

theorem submit_answer_statsBounds (g : GameState) (p : PlayerSide) (i : Int)
    (hb : 0 ≤ g.config.points_per_correct) (hbo : 0 ≤ g.config.bonus_for_correct)
    (hL : statsBounds g.left_stats) (hR : statsBounds g.right_stats) :
    statsBounds (submit_answer g p i).2.left_stats ∧
    statsBounds (submit_answer g p i).2.right_stats := by
  unfold submit_answer
  by_cases hg : g.phase ≠ GamePhase.WAITING ∨ g.player_answer p ≠ none
  · rw [if_pos hg]
    exact ⟨hL, hR⟩
  · rw [if_neg hg]
    cases p <;>
      simp only [GameState.set_answer, GameState.set_stats, GameState.player_stats,
        GameState.player_question, show_round_feedback, ite_left_stats, ite_right_stats,
        ite_config, ite_left_answer, ite_right_answer, ite_self] <;>
      constructor <;>
      first
        | (split_ifs with hc <;>
            first
              | exact statsBounds_add_correct _ _ _ _ (by assumption)
                  (calculate_score_nonneg _ _ _ _ hb hbo)
              | exact statsBounds_add_wrong _ _ (by assumption))
        | assumption

theorem continue_statsBounds (g : GameState) (qL qR : QuestionData)
    (hL : statsBounds g.left_stats) (hR : statsBounds g.right_stats) :
    statsBounds (continue_to_next_round g qL qR).left_stats ∧
    statsBounds (continue_to_next_round g qL qR).right_stats := by
  unfold continue_to_next_round
  by_cases hge : (end_round g).current_round ≥ (end_round g).config.total_rounds
  · rw [if_pos hge]
    exact ⟨statsBounds_applyEndBonus _ _ hL, statsBounds_applyEndBonus _ _ hR⟩
  · rw [if_neg hge]
    exact start_new_round_statsBounds _ qL qR hL hR

theorem reachable_statsBounds {c : GameConfig} (hb : 0 ≤ c.points_per_correct)
    (hbo : 0 ≤ c.bonus_for_correct) {g : GameState} (h : Reachable c g) :
    statsBounds g.left_stats ∧ statsBounds g.right_stats := by
  induction h with
  | init => exact ⟨statsBounds_init, statsBounds_init⟩
  | start g' qL qR hr ih => exact start_game_statsBounds g' qL qR
  | submit g' p i hr ih =>
    have hcfg : g'.config = c := reachable_config hr
    exact submit_answer_statsBounds g' p i (by rw [hcfg]; exact hb)
      (by rw [hcfg]; exact hbo) ih.1 ih.2
  | cont g' qL qR hr ih => exact continue_statsBounds g' qL qR ih.1 ih.2

theorem add_wrong_answer_counters (stats : PlayerStats) (cfg : GameConfig) :
    (add_wrong_answer stats (some cfg)).wrong_answers = stats.wrong_answers + 1 ∧
    (add_wrong_answer stats (some cfg)).correct_answers = stats.correct_answers ∧
    (add_wrong_answer stats (some cfg)).current_streak = 0 := by
  simp only [add_wrong_answer]
  split_ifs <;> simp

/-- The submission guard: an invalid-phase or duplicate submission returns
`false` with the state untouched. -/
theorem submit_answer_guard (g : GameState) (p : PlayerSide) (i : Int)
    (h : g.phase ≠ GamePhase.WAITING ∨ g.player_answer p ≠ none) :
    submit_answer g p i = (false, g) := by
  unfold submit_answer
  rw [if_pos h]

/-! ### The claims -/

/-- C3: for every call to `calculate_score_and_details`, a wrong answer
scores 0; a correct first-to-answer scores `points_per_correct +
bonus_for_correct`; a correct non-first scores `points_per_correct`; and the
details string conveys correctness ("回答正确"/"回答错误"), whether the
priority bonus applied ("优先"), and the numeric total. -/
theorem score_function_spec (config : GameConfig) (d : Int) :
    (∀ f, (calculate_score_and_details config false d f).1 = 0) ∧
    (calculate_score_and_details config true d true).1 =
      config.points_per_correct + config.bonus_for_correct ∧
    (calculate_score_and_details config true d false).1 = config.points_per_correct ∧
    (∀ f, mentions (calculate_score_and_details config false d f).2 "回答错误" ∧
      mentions (calculate_score_and_details config false d f).2 "0分" ∧
      ¬ mentions (calculate_score_and_details config false d f).2 "优先") ∧
    (∀ f, mentions (calculate_score_and_details config true d f).2 "回答正确" ∧
      mentions (calculate_score_and_details config true d f).2
        (toString (calculate_score_and_details config true d f).1)) ∧
    mentions (calculate_score_and_details config true d true).2 "优先" ∧
    ¬ mentions (calculate_score_and_details config true d false).2 "优先" := by
  refine ⟨fun f => by simp [calculate_score_and_details],
    by simp [calculate_score_and_details],
    by simp [calculate_score_and_details],
    fun f => ?_, fun f => ?_, ?_, ?_⟩
  · simp only [calculate_score_and_details, Bool.not_false, if_pos]
    exact ⟨by decide, by decide, by decide⟩
  · cases f with
    | true =>
      simp only [calculate_score_and_details, Bool.not_true, Bool.false_eq_true,
        if_false, if_pos]
      exact ⟨mentions_correctFirstMsg_ok _ _ _, mentions_correctFirstMsg_total _ _ _⟩
    | false =>
      simp only [calculate_score_and_details, Bool.not_true, Bool.false_eq_true,
        if_false]
      exact ⟨mentions_correctSecondMsg_ok _ _, mentions_correctSecondMsg_total _ _⟩
  · simp only [calculate_score_and_details, Bool.not_true, Bool.false_eq_true, if_false,
      if_pos]
    exact mentions_correctFirstMsg_priority _ _ _
  · simp only [calculate_score_and_details, Bool.not_true, Bool.false_eq_true, if_false]
    exact not_mentions_correctSecondMsg_priority _ _

/-- C4: when a wrong answer ends a streak with `current_streak ≥ 2`, the bonus
is `max_streak_bonus` for streaks ≥ 8 and otherwise the table value; a
positive bonus is added to the score and appended to `streak_bonuses`, and
`current_streak` is reset to 0.  With the default table and
`max_streak_bonus = 4`, a breaking streak of 5 awards 2, of 9 awards 4, and
of 1 awards 0. -/
theorem streak_end_bonus_spec (stats : PlayerStats) (cfg : GameConfig)
    (h2 : stats.current_streak ≥ 2) :
    (add_wrong_answer stats (some cfg)).current_streak = 0 ∧
    ((if stats.current_streak ≥ 8 then cfg.max_streak_bonus
        else cfg.streak_bonus stats.current_streak) > 0 →
      (add_wrong_answer stats (some cfg)).score = stats.score +
        (if stats.current_streak ≥ 8 then cfg.max_streak_bonus
          else cfg.streak_bonus stats.current_streak) ∧
      (add_wrong_answer stats (some cfg)).streak_bonuses = stats.streak_bonuses ++
        [if stats.current_streak ≥ 8 then cfg.max_streak_bonus
          else cfg.streak_bonus stats.current_streak]) ∧
    (∀ s : PlayerStats, s.current_streak = 5 →
      (add_wrong_answer s (some defaultConfig)).score = s.score + 2 ∧
      (add_wrong_answer s (some defaultConfig)).streak_bonuses = s.streak_bonuses ++ [2]) ∧
    (∀ s : PlayerStats, s.current_streak = 9 →
      (add_wrong_answer s (some defaultConfig)).score = s.score + 4 ∧
      (add_wrong_answer s (some defaultConfig)).streak_bonuses = s.streak_bonuses ++ [4]) ∧
    (∀ s : PlayerStats, s.current_streak = 1 →
      (add_wrong_answer s (some defaultConfig)).score = s.score ∧
      (add_wrong_answer s (some defaultConfig)).streak_bonuses = s.streak_bonuses ∧
      (add_wrong_answer s (some defaultConfig)).last_round_score = 0) := by
  refine ⟨by simp [add_wrong_answer], ?_, ?_, ?_, ?_⟩
  · intro hpos
    have hb : calc_streak_bonus stats.current_streak cfg =
        (if stats.current_streak ≥ 8 then cfg.max_streak_bonus
          else cfg.streak_bonus stats.current_streak) := rfl
    simp [add_wrong_answer, hb, h2, hpos]
  · intro s hs
    simp [add_wrong_answer, calc_streak_bonus, hs, defaultConfig, defaultStreakTable]
  · intro s hs
    simp [add_wrong_answer, calc_streak_bonus, hs, defaultConfig, defaultStreakTable]
  · intro s hs
    simp [add_wrong_answer, calc_streak_bonus, hs, defaultConfig, defaultStreakTable]

/-- C10: a wrong answer sets `last_round_score` to the streak bonus just
banked — positive exactly when `current_streak ≥ 2` and the configured bonus
is positive (the bonus then also lands in `streak_bonuses`) — and to 0 only
when no positive bonus is banked. -/
theorem wrong_answer_last_round_score_spec (stats : PlayerStats) (cfg : GameConfig)
    (hbt : ∀ k, 0 ≤ cfg.streak_bonus k) (hbm : 0 ≤ cfg.max_streak_bonus) :
    (add_wrong_answer stats (some cfg)).last_round_score =
      (if stats.current_streak ≥ 2 ∧ 0 < calc_streak_bonus stats.current_streak cfg
        then calc_streak_bonus stats.current_streak cfg else 0) ∧
    (stats.current_streak ≥ 2 → 0 < calc_streak_bonus stats.current_streak cfg →
      0 < (add_wrong_answer stats (some cfg)).last_round_score ∧
      (add_wrong_answer stats (some cfg)).streak_bonuses =
        stats.streak_bonuses ++ [(add_wrong_answer stats (some cfg)).last_round_score]) ∧
    (¬ (stats.current_streak ≥ 2 ∧ 0 < calc_streak_bonus stats.current_streak cfg) →
      (add_wrong_answer stats (some cfg)).last_round_score = 0) := by
  have hcalc : 0 ≤ calc_streak_bonus stats.current_streak cfg := by
    unfold calc_streak_bonus
    by_cases h8 : stats.current_streak ≥ 8
    · rw [if_pos h8]; exact hbm
    · rw [if_neg h8]; exact hbt _
  have hmain : (add_wrong_answer stats (some cfg)).last_round_score =
      (if stats.current_streak ≥ 2 ∧ 0 < calc_streak_bonus stats.current_streak cfg
        then calc_streak_bonus stats.current_streak cfg else 0) := by
    by_cases h2 : stats.current_streak ≥ 2
    · by_cases hpos : 0 < calc_streak_bonus stats.current_streak cfg
      · simp [add_wrong_answer, h2, hpos]
      · have h0 : calc_streak_bonus stats.current_streak cfg = 0 := le_antisymm (not_lt.mp hpos) hcalc
        simp [add_wrong_answer, h2, hpos, h0]
    · simp [add_wrong_answer, h2]
  refine ⟨hmain, fun h2 hpos => ?_, fun hn => ?_⟩
  · rw [hmain, if_pos ⟨h2, hpos⟩]
    exact ⟨hpos, by simp [add_wrong_answer, h2, hpos]⟩
  · rw [hmain, if_neg hn]

/-- Witness for the C4 theorem at a concrete input: a streak of 5 breaking
under the default config awards bonus 2. -/
theorem streak_end_bonus_spec_witness :
    ({ initPlayerStats with current_streak := 5 } : PlayerStats).current_streak ≥ 2 ∧
    (add_wrong_answer { initPlayerStats with current_streak := 5 }
      (some defaultConfig)).current_streak = 0 ∧
    (add_wrong_answer { initPlayerStats with current_streak := 5 }
      (some defaultConfig)).score = 2 :=
  ⟨by decide,
    (streak_end_bonus_spec { initPlayerStats with current_streak := 5 } defaultConfig
      (by decide)).1,
    by
      have h := ((streak_end_bonus_spec { initPlayerStats with current_streak := 5 }
        defaultConfig (by decide)).2.2.1
        { initPlayerStats with current_streak := 5 } rfl).1
      simpa [initPlayerStats] using h⟩

/-- Witness for the C10 theorem: a wrong answer on a streak of 4 banks a
positive `last_round_score`. -/
theorem wrong_answer_last_round_score_spec_witness :
    (∀ k, 0 ≤ defaultConfig.streak_bonus k) ∧ 0 ≤ defaultConfig.max_streak_bonus ∧
    0 < (add_wrong_answer { initPlayerStats with current_streak := 4 }
      (some defaultConfig)).last_round_score :=
  ⟨fun k => defaultStreakTable_nonneg k, by norm_num [defaultConfig],
    ((wrong_answer_last_round_score_spec { initPlayerStats with current_streak := 4 }
      defaultConfig (fun k => defaultStreakTable_nonneg k)
      (by norm_num [defaultConfig])).2.1 (by decide) (by decide)).1⟩

/-- C5: `submit_answer` returns `false` and leaves the whole state unchanged
whenever the phase is not WAITING or that player's answer slot is already
filled; in particular, after a successful submission a second submission by
the same player fails and changes nothing. -/
theorem submit_answer_invalid_no_change (g : GameState) (p : PlayerSide) (i : Int)
    (h : g.phase ≠ GamePhase.WAITING ∨ g.player_answer p ≠ none) :
    submit_answer g p i = (false, g) ∧
    (∀ (g0 : GameState) (q : PlayerSide) (a b : Int), (submit_answer g0 q a).1 = true →
      submit_answer (submit_answer g0 q a).2 q b = (false, (submit_answer g0 q a).2)) := by
  constructor
  · exact submit_answer_guard g p i h
  · intro g0 q a b hsucc
    have hslot : (submit_answer g0 q a).2.player_answer q = some a := by
      unfold submit_answer at hsucc ⊢
      by_cases hg : g0.phase ≠ GamePhase.WAITING ∨ g0.player_answer q ≠ none
      · rw [if_pos hg] at hsucc
        simp at hsucc
      · rw [if_neg hg]
        cases q <;>
          simp [GameState.set_answer, GameState.set_stats, show_round_feedback,
            GameState.player_answer]
    exact submit_answer_guard _ q b
      (Or.inr (by rw [hslot]; exact fun hh => Option.noConfusion hh))

/-- C6: with config `{total_rounds := 1, points_per_correct := 2,
bonus_for_correct := 1}`, LEFT answering correctly first and RIGHT correctly
second gives LEFT score 3 with "优先" (priority) in the details, RIGHT score 2
without it, and the phase becomes ROUND_FEEDBACK immediately after RIGHT's
submission (it is still WAITING after LEFT's). -/
theorem priority_bonus_scenario (qL qR : QuestionData) (aL aR : Int)
    (hL : aL = qL.correct_index) (hR : aR = qR.correct_index) :
    (submit_answer (start_game (initGameState { defaultConfig with total_rounds := 1 })
      qL qR) PlayerSide.LEFT aL).1 = true ∧
    (submit_answer (start_game (initGameState { defaultConfig with total_rounds := 1 })
      qL qR) PlayerSide.LEFT aL).2.phase = GamePhase.WAITING ∧
    (submit_answer (submit_answer (start_game
        (initGameState { defaultConfig with total_rounds := 1 }) qL qR)
      PlayerSide.LEFT aL).2 PlayerSide.RIGHT aR).1 = true ∧
    (submit_answer (submit_answer (start_game
        (initGameState { defaultConfig with total_rounds := 1 }) qL qR)
      PlayerSide.LEFT aL).2 PlayerSide.RIGHT aR).2.phase = GamePhase.ROUND_FEEDBACK ∧
    (submit_answer (submit_answer (start_game
        (initGameState { defaultConfig with total_rounds := 1 }) qL qR)
      PlayerSide.LEFT aL).2 PlayerSide.RIGHT aR).2.left_stats.score = 3 ∧
    (submit_answer (submit_answer (start_game
        (initGameState { defaultConfig with total_rounds := 1 }) qL qR)
      PlayerSide.LEFT aL).2 PlayerSide.RIGHT aR).2.left_stats.correct_answers = 1 ∧
    mentions (submit_answer (submit_answer (start_game
        (initGameState { defaultConfig with total_rounds := 1 }) qL qR)
      PlayerSide.LEFT aL).2 PlayerSide.RIGHT aR).2.left_stats.last_round_details "优先" ∧
    (submit_answer (submit_answer (start_game
        (initGameState { defaultConfig with total_rounds := 1 }) qL qR)
      PlayerSide.LEFT aL).2 PlayerSide.RIGHT aR).2.right_stats.score = 2 ∧
    (submit_answer (submit_answer (start_game
        (initGameState { defaultConfig with total_rounds := 1 }) qL qR)
      PlayerSide.LEFT aL).2 PlayerSide.RIGHT aR).2.right_stats.correct_answers = 1 ∧
    ¬ mentions (submit_answer (submit_answer (start_game
        (initGameState { defaultConfig with total_rounds := 1 }) qL qR)
      PlayerSide.LEFT aL).2 PlayerSide.RIGHT aR).2.right_stats.last_round_details "优先" := by
  simp only [start_game, start_new_round, initGameState, submit_answer,
    GameState.set_answer, GameState.set_stats, GameState.player_answer,
    GameState.player_question, GameState.player_stats, show_round_feedback,
    calculate_score_and_details, add_correct_answer, defaultConfig, hL, hR]
  norm_num [initPlayerStats]
  refine ⟨fun h => absurd (h (by simp)) (by simp),
    mentions_correctFirstMsg_priority 2 1 3, not_mentions_correctSecondMsg_priority 2 2⟩

/-- C7: with `total_rounds = 3`, playing three full rounds (both sides answer,
each feedback continued) drives the phase SETUP → WAITING (through the
transient PLAYING) → ROUND_FEEDBACK → ... and reaches FINISHED exactly after
round 3's feedback is continued; moreover in every reachable state
`current_round ≤ total_rounds`. -/
theorem round_lifecycle_three_rounds
    (q1L q1R q2L q2R q3L q3R : QuestionData) (a1L a1R a2L a2R a3L a3R : Int) :
    (initGameState { defaultConfig with total_rounds := 3 }).phase = GamePhase.SETUP ∧
    (let g1 := start_game (initGameState { defaultConfig with total_rounds := 3 }) q1L q1R
     let f1 := (submit_answer (submit_answer g1 PlayerSide.LEFT a1L).2 PlayerSide.RIGHT a1R).2
     let g2 := continue_to_next_round f1 q2L q2R
     let f2 := (submit_answer (submit_answer g2 PlayerSide.LEFT a2L).2 PlayerSide.RIGHT a2R).2
     let g3 := continue_to_next_round f2 q3L q3R
     let f3 := (submit_answer (submit_answer g3 PlayerSide.LEFT a3L).2 PlayerSide.RIGHT a3R).2
     let gfin := continue_to_next_round f3 q1L q1R
     g1.phase = GamePhase.WAITING ∧ g1.current_round = 1 ∧
     f1.phase = GamePhase.ROUND_FEEDBACK ∧ f1.current_round = 1 ∧
     (end_round f1).phase = GamePhase.PLAYING ∧
     g2.phase = GamePhase.WAITING ∧ g2.current_round = 2 ∧
     f2.phase = GamePhase.ROUND_FEEDBACK ∧ f2.current_round = 2 ∧
     g3.phase = GamePhase.WAITING ∧ g3.current_round = 3 ∧
     f3.phase = GamePhase.ROUND_FEEDBACK ∧ f3.current_round = 3 ∧
     gfin.phase = GamePhase.FINISHED ∧ gfin.current_round = 3) ∧
    (∀ g : GameState, Reachable { defaultConfig with total_rounds := 3 } g →
      g.current_round ≤ 3) := by
  refine ⟨rfl, ?_, fun g hg => reachable_round_le (by decide) hg⟩
  intro g1 f1 g2 f2 g3 f3 gfin
  obtain ⟨h1p, h1r, h1l, h1rr, h1c⟩ :=
    start_game_effect (initGameState { defaultConfig with total_rounds := 3 }) q1L q1R
      (by decide)
  obtain ⟨h1w, hf1p, hf1r, hf1c⟩ := submit_both_effect g1 a1L a1R h1p h1l h1rr
  have hf1round : f1.current_round = 1 := by rw [hf1r, h1r]
  have hf1cfg : f1.config.total_rounds = 3 := by rw [hf1c, h1c]; rfl
  obtain ⟨hend1, _, hcont1⟩ := continue_effect f1 q2L q2R
  obtain ⟨h2p, h2r, h2l, h2rr, h2c⟩ := hcont1 (by rw [hf1round, hf1cfg]; decide)
  have h2round : g2.current_round = 2 := by rw [h2r, hf1round]; decide
  have h2cfg : g2.config.total_rounds = 3 := by rw [h2c, hf1cfg]
  obtain ⟨h2w, hf2p, hf2r, hf2c⟩ := submit_both_effect g2 a2L a2R h2p h2l h2rr
  have hf2round : f2.current_round = 2 := by rw [hf2r, h2round]
  have hf2cfg : f2.config.total_rounds = 3 := by rw [hf2c, h2cfg]
  obtain ⟨hend2, _, hcont2⟩ := continue_effect f2 q3L q3R
  obtain ⟨h3p, h3r, h3l, h3rr, h3c⟩ := hcont2 (by rw [hf2round, hf2cfg]; decide)
  have h3round : g3.current_round = 3 := by rw [h3r, hf2round]; decide
  have h3cfg : g3.config.total_rounds = 3 := by rw [h3c, hf2cfg]
  obtain ⟨h3w, hf3p, hf3r, hf3c⟩ := submit_both_effect g3 a3L a3R h3p h3l h3rr
  have hf3round : f3.current_round = 3 := by rw [hf3r, h3round]
  have hf3cfg : f3.config.total_rounds = 3 := by rw [hf3c, h3cfg]
  obtain ⟨hend3, hfinish, _⟩ := continue_effect f3 q1L q1R
  obtain ⟨hfp, hfr, hfc⟩ := hfinish (by rw [hf3round, hf3cfg])
  exact ⟨h1p, h1r, hf1p, hf1round, hend1, h2p, h2round, hf2p, hf2round,
    h3p, h3round, hf3p, hf3round, hfp, by rw [hfr, hf3round]⟩

/-- Witness for the C6 theorem at a concrete question: answer index 0 is the
correct index of a concrete question, and the scenario ends in
ROUND_FEEDBACK with LEFT at score 3. -/
theorem priority_bonus_scenario_witness :
    (0 : Int) =
      (⟨"r", "a", ["a", "b", "c", "d"], ["a", "b", "c", "d"], 0, 1⟩ :
        QuestionData).correct_index ∧
    (submit_answer (submit_answer (start_game
        (initGameState { defaultConfig with total_rounds := 1 })
        (⟨"r", "a", ["a", "b", "c", "d"], ["a", "b", "c", "d"], 0, 1⟩ : QuestionData)
        (⟨"r", "a", ["a", "b", "c", "d"], ["a", "b", "c", "d"], 0, 1⟩ : QuestionData))
      PlayerSide.LEFT 0).2 PlayerSide.RIGHT 0).2.phase = GamePhase.ROUND_FEEDBACK ∧
    (submit_answer (submit_answer (start_game
        (initGameState { defaultConfig with total_rounds := 1 })
        (⟨"r", "a", ["a", "b", "c", "d"], ["a", "b", "c", "d"], 0, 1⟩ : QuestionData)
        (⟨"r", "a", ["a", "b", "c", "d"], ["a", "b", "c", "d"], 0, 1⟩ : QuestionData))
      PlayerSide.LEFT 0).2 PlayerSide.RIGHT 0).2.left_stats.score = 3 :=
  ⟨rfl,
    (priority_bonus_scenario _ _ 0 0 rfl rfl).2.2.2.1,
    (priority_bonus_scenario _ _ 0 0 rfl rfl).2.2.2.2.1⟩

/-- Witness for the C7 theorem: the freshly constructed state is reachable
and satisfies the round bound. -/
theorem round_lifecycle_three_rounds_witness :
    Reachable { defaultConfig with total_rounds := 3 }
      (initGameState { defaultConfig with total_rounds := 3 }) ∧
    (initGameState { defaultConfig with total_rounds := 3 }).current_round ≤ 3 :=
  ⟨Reachable.init,
    (round_lifecycle_three_rounds dummyQuestion dummyQuestion dummyQuestion
        dummyQuestion dummyQuestion dummyQuestion 0 0 0 0 0 0).2.2
      (initGameState { defaultConfig with total_rounds := 3 }) Reachable.init⟩

/-- Witness for the C5 theorem: submitting in the SETUP phase is rejected and
changes nothing. -/
theorem submit_answer_invalid_no_change_witness :
    ((initGameState defaultConfig).phase ≠ GamePhase.WAITING ∨
      (initGameState defaultConfig).player_answer PlayerSide.LEFT ≠ none) ∧
    submit_answer (initGameState defaultConfig) PlayerSide.LEFT 0 =
      (false, initGameState defaultConfig) :=
  ⟨Or.inl (by decide),
    (submit_answer_invalid_no_change (initGameState defaultConfig) PlayerSide.LEFT 0
      (Or.inl (by decide))).1⟩

/-- C8 (counterexample to the claim as stated): in WAITING, submitting the
out-of-range answer index 7 does not fail — `submit_answer` returns `true`
and silently records a normal wrong answer for the player. -/
theorem out_of_range_answer_counterexample :
    (7 : Int) > 3 ∧
    (start_game (initGameState defaultConfig)
      (⟨"r", "a", ["a", "b", "c", "d"], ["a", "b", "c", "d"], 0, 1⟩ : QuestionData)
      (⟨"r", "a", ["a", "b", "c", "d"], ["a", "b", "c", "d"], 0, 1⟩ : QuestionData)).phase =
      GamePhase.WAITING ∧
    (submit_answer (start_game (initGameState defaultConfig)
      (⟨"r", "a", ["a", "b", "c", "d"], ["a", "b", "c", "d"], 0, 1⟩ : QuestionData)
      (⟨"r", "a", ["a", "b", "c", "d"], ["a", "b", "c", "d"], 0, 1⟩ : QuestionData))
      PlayerSide.LEFT 7).1 = true ∧
    (submit_answer (start_game (initGameState defaultConfig)
      (⟨"r", "a", ["a", "b", "c", "d"], ["a", "b", "c", "d"], 0, 1⟩ : QuestionData)
      (⟨"r", "a", ["a", "b", "c", "d"], ["a", "b", "c", "d"], 0, 1⟩ : QuestionData))
      PlayerSide.LEFT 7).2.left_stats.wrong_answers = 1 := by
  refine ⟨by decide, ?_, ?_, ?_⟩ <;>
    simp [start_game, start_new_round, initGameState, defaultConfig, submit_answer,
      GameState.set_answer, GameState.set_stats, GameState.player_answer,
      GameState.player_question, GameState.player_stats, show_round_feedback,
      add_wrong_answer, initPlayerStats]

/-- C8 (amended): in WAITING with an empty slot, an out-of-range answer index
is accepted (`true` is returned) and scored as an ordinary wrong answer —
there is no precondition check on the index. -/
theorem out_of_range_answer_is_wrong_answer (g : GameState) (p : PlayerSide) (i : Int)
    (q : QuestionData) (hph : g.phase = GamePhase.WAITING)
    (hempty : g.player_answer p = none) (hq : g.player_question p = some q)
    (hrange : ¬ (0 ≤ i ∧ i ≤ 3)) (hqidx : 0 ≤ q.correct_index ∧ q.correct_index ≤ 3) :
    (submit_answer g p i).1 = true ∧
    ((submit_answer g p i).2.player_stats p).wrong_answers =
      (g.player_stats p).wrong_answers + 1 ∧
    ((submit_answer g p i).2.player_stats p).correct_answers =
      (g.player_stats p).correct_answers := by
  have hne : (i == q.correct_index) = false := by
    rw [beq_eq_false_iff_ne]
    intro hh
    rw [hh] at hrange
    exact hrange hqidx
  unfold submit_answer
  rw [if_neg (by rw [hph, hempty]; simp)]
  cases p <;>
    simp_all [GameState.set_answer, GameState.set_stats, show_round_feedback,
      GameState.player_answer, GameState.player_question, GameState.player_stats,
      add_wrong_answer_counters]

/-- Witness for the amended C8 theorem at a concrete out-of-range input. -/
theorem out_of_range_answer_is_wrong_answer_witness :
    (start_game (initGameState defaultConfig)
      (⟨"r", "a", ["a", "b", "c", "d"], ["a", "b", "c", "d"], 0, 1⟩ : QuestionData)
      (⟨"r", "a", ["a", "b", "c", "d"], ["a", "b", "c", "d"], 0, 1⟩ : QuestionData)).phase =
      GamePhase.WAITING ∧
    ¬ ((0 : Int) ≤ -2 ∧ (-2 : Int) ≤ 3) ∧
    ((submit_answer (start_game (initGameState defaultConfig)
      (⟨"r", "a", ["a", "b", "c", "d"], ["a", "b", "c", "d"], 0, 1⟩ : QuestionData)
      (⟨"r", "a", ["a", "b", "c", "d"], ["a", "b", "c", "d"], 0, 1⟩ : QuestionData))
      PlayerSide.LEFT (-2)).2.player_stats PlayerSide.LEFT).wrong_answers =
      ((start_game (initGameState defaultConfig)
        (⟨"r", "a", ["a", "b", "c", "d"], ["a", "b", "c", "d"], 0, 1⟩ : QuestionData)
        (⟨"r", "a", ["a", "b", "c", "d"], ["a", "b", "c", "d"], 0, 1⟩ : QuestionData)).player_stats
        PlayerSide.LEFT).wrong_answers + 1 :=
  ⟨by decide, by decide,
    (out_of_range_answer_is_wrong_answer _ PlayerSide.LEFT (-2)
      (⟨"r", "a", ["a", "b", "c", "d"], ["a", "b", "c", "d"], 0, 1⟩ : QuestionData)
      (by decide) (by decide) (by decide) (by decide) (by decide)).2.1⟩

/-- C9: in every reachable game state (under a config with non-negative base
and priority points, as the default), each player's stats satisfy
`0 ≤ current_streak ≤ max_streak` and non-negative score and counters; the
invariant is preserved by recording a correct answer, recording a wrong
answer, the end-of-game bonus application, and the game-start reset. -/
theorem player_stats_invariant (c : GameConfig) (g : GameState) (p : PlayerSide)
    (hb : 0 ≤ c.points_per_correct) (hbo : 0 ≤ c.bonus_for_correct)
    (h : Reachable c g) :
    statsBounds (g.player_stats p) ∧
    (∀ (s : PlayerStats) (pts : Int) (de : String) (pr : Bool), statsBounds s →
      0 ≤ pts → statsBounds (add_correct_answer s pts de pr)) ∧
    (∀ (s : PlayerStats) (cfg : GameConfig), statsBounds s →
      statsBounds (add_wrong_answer s (some cfg))) ∧
    (∀ (s : PlayerStats) (cfg : GameConfig), statsBounds s →
      statsBounds (applyEndBonus cfg s)) ∧
    statsBounds initPlayerStats := by
  refine ⟨?_, fun s pts de pr hs hp => statsBounds_add_correct s pts de pr hs hp,
    fun s cfg hs => statsBounds_add_wrong s cfg hs,
    fun s cfg hs => statsBounds_applyEndBonus cfg s hs, statsBounds_init⟩
  obtain ⟨hL, hR⟩ := reachable_statsBounds hb hbo h
  cases p
  · exact hL
  · exact hR

/-- Witness for the C9 theorem at the freshly constructed default-config
state. -/
theorem player_stats_invariant_witness :
    0 ≤ defaultConfig.points_per_correct ∧ 0 ≤ defaultConfig.bonus_for_correct ∧
    Reachable defaultConfig (initGameState defaultConfig) ∧
    statsBounds ((initGameState defaultConfig).player_stats PlayerSide.LEFT) :=
  ⟨by decide, by decide, Reachable.init,
    (player_stats_invariant defaultConfig (initGameState defaultConfig) PlayerSide.LEFT
      (by decide) (by decide) Reachable.init).1⟩

/-- C1 (counterexample to the claim as stated): with the pool
`[("r1","a"), ("r2","a；b"), ("r3","c"), ("r4","d")]` and a valid sample of
all three candidates, the generated question for entry 0 has TWO choices equal
to the correct answer "a": the raw pool answer "a；b" passes the
`answer != correct_answer` filter and only afterwards canonicalises to "a". -/
theorem question_duplicate_correct_counterexample :
    ([0, 1, 2] : List Nat).Nodup ∧
    (∀ i ∈ ([0, 1, 2] : List Nat),
      i < (incorrect_candidates ["a", "a；b", "c", "d"] "a" 3).length) ∧
    ([0, 1, 2] : List Nat).length =
      min 3 (incorrect_candidates ["a", "a；b", "c", "d"] "a" 3).length ∧
    (generate_question [⟨"r1", "a"⟩, ⟨"r2", "a；b"⟩, ⟨"r3", "c"⟩, ⟨"r4", "d"⟩]
      0 [0, 1, 2] id).correct_answer = "a" ∧
    (generate_question [⟨"r1", "a"⟩, ⟨"r2", "a；b"⟩, ⟨"r3", "c"⟩, ⟨"r4", "d"⟩]
      0 [0, 1, 2] id).choices.count "a" = 2 := by
  refine ⟨by decide, by decide, by decide, ?_, ?_⟩ <;> decide

/-- C1 (amended): for every valid generator run (shuffle a permutation,
sampled indices in range), `choices[correct_index] = correct_answer` holds and
`correct_answer` occurs among the choices (its index is the first occurrence),
and every choice is either the correct answer or drawn from the canonicalised
candidate pool (raw answers differing from the correct answer) — but a
canonicalised distractor may itself equal the correct answer, so "exactly one
choice equals correctAnswer" does not hold in general. -/
theorem question_invariant_amended (data : List RiddleEntry) (selIdx : Nat)
    (sampIdxs : List Nat) (σ : List (String × String) → List (String × String))
    (hσ : ∀ l, List.Perm (σ l) l)
    (hidx : ∀ i ∈ sampIdxs, i <
      (incorrect_candidates (data.map RiddleEntry.answer)
        (canonicalAnswer (data.getD selIdx dummyEntry).answer) 3).length) :
    (generate_question data selIdx sampIdxs σ).correct_index.toNat <
      (generate_question data selIdx sampIdxs σ).choices.length ∧
    (generate_question data selIdx sampIdxs σ).choices.getD
      (generate_question data selIdx sampIdxs σ).correct_index.toNat "" =
      (generate_question data selIdx sampIdxs σ).correct_answer ∧
    (generate_question data selIdx sampIdxs σ).correct_answer ∈
      (generate_question data selIdx sampIdxs σ).choices ∧
    (∀ c ∈ (generate_question data selIdx sampIdxs σ).choices,
      c = (generate_question data selIdx sampIdxs σ).correct_answer ∨
      c ∈ incorrect_candidates (data.map RiddleEntry.answer)
        (canonicalAnswer (data.getD selIdx dummyEntry).answer) 3) := by
  have hq : generate_question data selIdx sampIdxs σ =
      { riddle := (data.getD selIdx dummyEntry).riddle
        correct_answer := canonicalAnswer (data.getD selIdx dummyEntry).answer
        choices := (σ ((canonicalAnswer (data.getD selIdx dummyEntry).answer ::
          generate_incorrect_answers (data.map RiddleEntry.answer)
            (canonicalAnswer (data.getD selIdx dummyEntry).answer) 3 sampIdxs).zip
          ((canonicalAnswer (data.getD selIdx dummyEntry).answer ::
            generate_incorrect_answers (data.map RiddleEntry.answer)
              (canonicalAnswer (data.getD selIdx dummyEntry).answer) 3 sampIdxs).map
            mask_answer))).map Prod.fst
        masked_choices := (σ ((canonicalAnswer (data.getD selIdx dummyEntry).answer ::
          generate_incorrect_answers (data.map RiddleEntry.answer)
            (canonicalAnswer (data.getD selIdx dummyEntry).answer) 3 sampIdxs).zip
          ((canonicalAnswer (data.getD selIdx dummyEntry).answer ::
            generate_incorrect_answers (data.map RiddleEntry.answer)
              (canonicalAnswer (data.getD selIdx dummyEntry).answer) 3 sampIdxs).map
            mask_answer))).map Prod.snd
        correct_index := (((σ ((canonicalAnswer (data.getD selIdx dummyEntry).answer ::
          generate_incorrect_answers (data.map RiddleEntry.answer)
            (canonicalAnswer (data.getD selIdx dummyEntry).answer) 3 sampIdxs).zip
          ((canonicalAnswer (data.getD selIdx dummyEntry).answer ::
            generate_incorrect_answers (data.map RiddleEntry.answer)
              (canonicalAnswer (data.getD selIdx dummyEntry).answer) 3 sampIdxs).map
            mask_answer))).findIdx
              (fun p => p.1 == canonicalAnswer (data.getD selIdx dummyEntry).answer) :
            Nat) : Int)
        difficulty_level :=
          calculate_difficulty (canonicalAnswer (data.getD selIdx dummyEntry).answer) } :=
    rfl
  set correct := canonicalAnswer (data.getD selIdx dummyEntry).answer with hcdef
  set incs := generate_incorrect_answers (data.map RiddleEntry.answer) correct 3 sampIdxs
    with hincs
  set cands := incorrect_candidates (data.map RiddleEntry.answer) correct 3 with hcands
  set combined := σ ((correct :: incs).zip ((correct :: incs).map mask_answer))
    with hcombined
  have hmaskid : (correct :: incs).map mask_answer = correct :: incs := by
    show (correct :: incs).map (fun a => a) = correct :: incs
    exact List.map_id' _
  have hzipself : (correct :: incs).zip ((correct :: incs).map mask_answer) =
      (correct :: incs).map (fun a => (a, a)) := by
    rw [hmaskid]
    exact zip_self_eq_map _
  have hperm : List.Perm combined ((correct :: incs).map (fun a => (a, a))) := by
    rw [hcombined, hzipself]
    exact hσ _
  have hmemc : (correct, correct) ∈ combined :=
    hperm.mem_iff.mpr (List.mem_map_of_mem _ (List.mem_cons_self _ _))
  have hlt : combined.findIdx (fun p => p.1 == correct) < combined.length :=
    List.findIdx_lt_length_of_exists ⟨(correct, correct), hmemc, by simp⟩
  rw [hq]
  refine ⟨?_, ?_, ?_, ?_⟩
  · simpa using hlt
  · simp only [Int.toNat_ofNat]
    rw [List.getD_eq_getElem?_getD, List.getElem?_eq_getElem (by simpa using hlt)]
    simp only [Option.getD_some, List.getElem_map]
    have hpred := @List.findIdx_getElem _ (fun p => p.1 == correct) combined hlt
    exact beq_iff_eq.mp hpred
  · exact List.mem_map.mpr ⟨(correct, correct), hmemc, rfl⟩
  · intro c hc
    obtain ⟨pr, hpr, hfst⟩ := List.mem_map.mp hc
    have hpr2 : pr ∈ (correct :: incs).map (fun a => (a, a)) := hperm.subset hpr
    obtain ⟨a, ha, heq⟩ := List.mem_map.mp hpr2
    have hca : c = a := by rw [← hfst, ← heq]
    rcases List.mem_cons.mp ha with h1 | h1
    · left
      rw [hca, h1]
    · right
      rw [hincs] at h1
      obtain ⟨i, hi, hgi⟩ := List.mem_map.mp h1
      have hilt : i < cands.length := hidx i hi
      rw [hca, ← hgi]
      rw [List.getD_eq_getElem?_getD, List.getElem?_eq_getElem hilt]
      simp only [Option.getD_some]
      exact List.getElem_mem hilt

/-- Witness for the amended C1 theorem at the concrete pool of the
counterexample. -/
theorem question_invariant_amended_witness :
    (∀ i ∈ ([0, 1, 2] : List Nat),
      i < (incorrect_candidates
        (([⟨"r1", "a"⟩, ⟨"r2", "a；b"⟩, ⟨"r3", "c"⟩, ⟨"r4", "d"⟩] :
          List RiddleEntry).map RiddleEntry.answer)
        (canonicalAnswer (([⟨"r1", "a"⟩, ⟨"r2", "a；b"⟩, ⟨"r3", "c"⟩, ⟨"r4", "d"⟩] :
          List RiddleEntry).getD 0 dummyEntry).answer) 3).length) ∧
    (generate_question [⟨"r1", "a"⟩, ⟨"r2", "a；b"⟩, ⟨"r3", "c"⟩, ⟨"r4", "d"⟩]
      0 [0, 1, 2] id).choices.getD
      (generate_question [⟨"r1", "a"⟩, ⟨"r2", "a；b"⟩, ⟨"r3", "c"⟩, ⟨"r4", "d"⟩]
        0 [0, 1, 2] id).correct_index.toNat "" =
      (generate_question [⟨"r1", "a"⟩, ⟨"r2", "a；b"⟩, ⟨"r3", "c"⟩, ⟨"r4", "d"⟩]
        0 [0, 1, 2] id).correct_answer :=
  ⟨by decide,
    (question_invariant_amended [⟨"r1", "a"⟩, ⟨"r2", "a；b"⟩, ⟨"r3", "c"⟩, ⟨"r4", "d"⟩]
      0 [0, 1, 2] id (fun l => List.Perm.refl l) (by decide)).2.1⟩

/-- C2 (counterexample to the claim as stated): a pool of two riddle entries
with two distinct answers (fewer than 4 unique answers) does NOT make the
generator raise: `generate_question` succeeds and returns a `QuestionData`
with only 2 choices.  (`random.sample` is called with
`min(count, len(candidates))`, so no `InsufficientDataError` — no such class
even exists in the source — can arise.) -/
theorem insufficient_pool_counterexample :
    ([⟨"r1", "a"⟩, ⟨"r2", "b"⟩] : List RiddleEntry).length = 2 ∧
    (incorrect_candidates
      (([⟨"r1", "a"⟩, ⟨"r2", "b"⟩] : List RiddleEntry).map RiddleEntry.answer)
      "a" 3).length = 1 ∧
    ([0] : List Nat).length = min 3 1 ∧
    generate_question_exc [⟨"r1", "a"⟩, ⟨"r2", "b"⟩] 0 [0] id =
      Except.ok (generate_question [⟨"r1", "a"⟩, ⟨"r2", "b"⟩] 0 [0] id) ∧
    (generate_question [⟨"r1", "a"⟩, ⟨"r2", "b"⟩] 0 [0] id).choices = ["a", "b"] ∧
    (generate_question [⟨"r1", "a"⟩, ⟨"r2", "b"⟩] 0 [0] id).choices.length = 2 := by
  refine ⟨rfl, by decide, rfl, rfl, by decide, by decide⟩

/-- C2 (amended): the only failure `generate_question` can raise is an
`IndexError` from `random.choice` on an empty pool; on any non-empty pool it
returns a `QuestionData` whose number of choices is
`1 + min 3 (number of candidates)` — in particular, fewer than 3 candidates
silently yield a question with fewer than 4 choices instead of an error. -/
theorem generator_failure_amended (data : List RiddleEntry) (selIdx : Nat)
    (sampIdxs : List Nat) (σ : List (String × String) → List (String × String))
    (hσ : ∀ l, List.Perm (σ l) l)
    (hlen : sampIdxs.length = min 3
      (incorrect_candidates (data.map RiddleEntry.answer)
        (canonicalAnswer (data.getD selIdx dummyEntry).answer) 3).length) :
    (data = [] → generate_question_exc data selIdx sampIdxs σ =
      Except.error "IndexError") ∧
    (data ≠ [] → generate_question_exc data selIdx sampIdxs σ =
      Except.ok (generate_question data selIdx sampIdxs σ)) ∧
    (generate_question data selIdx sampIdxs σ).choices.length = 1 + min 3
      (incorrect_candidates (data.map RiddleEntry.answer)
        (canonicalAnswer (data.getD selIdx dummyEntry).answer) 3).length ∧
    ((incorrect_candidates (data.map RiddleEntry.answer)
        (canonicalAnswer (data.getD selIdx dummyEntry).answer) 3).length < 3 →
      (generate_question data selIdx sampIdxs σ).choices.length < 4) := by
  have hch : (generate_question data selIdx sampIdxs σ).choices =
      (σ ((canonicalAnswer (data.getD selIdx dummyEntry).answer ::
        generate_incorrect_answers (data.map RiddleEntry.answer)
          (canonicalAnswer (data.getD selIdx dummyEntry).answer) 3 sampIdxs).zip
        ((canonicalAnswer (data.getD selIdx dummyEntry).answer ::
          generate_incorrect_answers (data.map RiddleEntry.answer)
            (canonicalAnswer (data.getD selIdx dummyEntry).answer) 3 sampIdxs).map
          mask_answer))).map Prod.fst := rfl
  have hcl : (generate_question data selIdx sampIdxs σ).choices.length =
      1 + sampIdxs.length := by
    rw [hch, List.length_map, (hσ _).length_eq, List.length_zip, List.length_map,
      min_self, List.length_cons, generate_incorrect_answers, List.length_map]
    omega
  refine ⟨fun hempty => ?_, fun hne => ?_, ?_, ?_⟩
  · simp [generate_question_exc, hempty]
  · simp [generate_question_exc, List.isEmpty_iff, hne]
  · rw [hcl, hlen]
  · intro hlt3
    rw [hcl, hlen]
    omega

/-- Witness for the amended C2 theorem at the concrete two-entry pool. -/
theorem generator_failure_amended_witness :
    ([0] : List Nat).length = min 3
      (incorrect_candidates
        (([⟨"r1", "a"⟩, ⟨"r2", "b"⟩] : List RiddleEntry).map RiddleEntry.answer)
        (canonicalAnswer (([⟨"r1", "a"⟩, ⟨"r2", "b"⟩] : List RiddleEntry).getD 0
          dummyEntry).answer) 3).length ∧
    (generate_question [⟨"r1", "a"⟩, ⟨"r2", "b"⟩] 0 [0] id).choices.length < 4 ∧
    generate_question_exc ([] : List RiddleEntry) 0 [] id =
      Except.error "IndexError" :=
  ⟨by decide,
    (generator_failure_amended [⟨"r1", "a"⟩, ⟨"r2", "b"⟩] 0 [0] id
      (fun l => List.Perm.refl l) (by decide)).2.2.2 (by decide),
    (generator_failure_amended ([] : List RiddleEntry) 0 [] id
      (fun l => List.Perm.refl l) (by decide)).1 rfl⟩
